import Mathlib

/-!
Verification development for the oh-my-live2d widget lifecycle orchestrator.

Shallow embedding of the orchestrator (`src/modules/oml2d.ts`) and of the
notification surface (`src/modules/tips.ts`).  JavaScript numbers holding
indices are modelled as `Int` (negative inputs are representable and the
source compares them with `>= 0`).  Collaborators that the orchestrator only
invokes (stage, status bar, pixi app, menus, model manager internals) are
modelled as emitted effects: every method call the orchestrator makes on them
is recorded, in source order, in a `List Effect` trace.  The boolean outcome
of the asynchronous `models.create()` call and the viewport classification
returned by `getWindowSizeType()` are ambient inputs of a workflow run,
packaged in `Env`.
-/

namespace Oml2d

/-- A catalog entry path: the source accepts a single path string or an array
of clothing-variant paths, discriminated with `Array.isArray`. -/
inductive ModelPath where
  | single (p : String)
  | many (ps : List String)
deriving DecidableEq

/-- One catalog entry (`options.models` element): display name and path(s). -/
structure Model where
  name : String
  path : ModelPath
deriving DecidableEq

/-- Number of clothing variants of a catalog entry: a lone path counts as one
variant, an array contributes its length. -/
def variantCount (m : Model) : Nat :=
  match m.path with
  | ModelPath.single _ => 1
  | ModelPath.many ps => ps.length

/-- The slice of the merged options the modelled code reads. -/
structure Options where
  models : List Model
  mobileDisplay : Bool
  switchingMessage : String
deriving DecidableEq

/-- Viewport size classification returned by `getWindowSizeType()`. -/
inductive WindowSizeType where
  | mobile
  | pc
deriving DecidableEq

/-- Ambient inputs of one workflow run: the current viewport classification
and whether the asynchronous `models.create()` call resolves (`loadOk = true`)
or rejects. -/
structure Env where
  windowSizeType : WindowSizeType
  loadOk : Bool
deriving DecidableEq

/-- A value passed through one of the two private setters
(`set modelIndex` / `set modelClothesIndex`). -/
inductive SetterWrite where
  | model (i : Int)
  | clothes (i : Int)
deriving DecidableEq

/-- The retry action handed to `statusBar.loadingError` — the source passes
a closure invoking `reloadModel`. -/
inductive RetryAction where
  | reloadModel
deriving DecidableEq

/-- Calls the orchestrator makes on its collaborators, in source order. -/
inductive Effect where
  | tipsClear
  | stageSlideOut
  | statusBarRest
  | statusBarShowLoading
  | modelsCreate
  | statusBarLoadingError (retry : RetryAction)
  | pixiMount
  | menusReload
  | tipsReload
  | settingModel
  | stageReloadStyle
  | pixiResize
  | statusBarHideLoading
  | stageSlideIn
  | statusBarOpen (message : String)
  | idleStart
deriving DecidableEq

/-- Orchestrator state: the private index fields, the mirrors the setters fan
out to (stage, model manager, persisted store), and a log of every value that
went through a setter (oldest first), used to state the setter-path invariant. -/
structure Oml2dState where
  options : Options
  currentModelIndex : Int
  currentModelClothesIndex : Int
  stageModelIndex : Int
  modelsModelIndex : Int
  modelsClothesIndex : Int
  storeModelIndex : Int
  storeClothesIndex : Int
  setterLog : List SetterWrite
deriving DecidableEq

/-- Source `set modelIndex` (oml2d.ts lines 112-117): updates the private field and
fans out to stage, model manager and persisted store. -/
def setModelIndex (s : Oml2dState) (index : Int) : Oml2dState :=
  { s with
    currentModelIndex := index
    stageModelIndex := index
    modelsModelIndex := index
    storeModelIndex := index
    setterLog := s.setterLog ++ [SetterWrite.model index] }

/-- Source `set modelClothesIndex` (oml2d.ts lines 123-127). -/
def setModelClothesIndex (s : Oml2dState) (index : Int) : Oml2dState :=
  { s with
    currentModelClothesIndex := index
    modelsClothesIndex := index
    storeClothesIndex := index
    setterLog := s.setterLog ++ [SetterWrite.clothes index] }

/-- Source `get mobileHidden` (oml2d.ts lines 108-110): a getter, so re-evaluated on
every access from the current options and the current viewport classification. -/
def mobileHidden (env : Env) (s : Oml2dState) : Bool :=
  !s.options.mobileDisplay && env.windowSizeType == WindowSizeType.mobile

/-- Source `loadModel` (oml2d.ts lines 159-192).  `callback` is the trace of the
completion callback the caller passes (every caller passes a closure running
`stage.slideIn`).  Faithful to the source promise chain
`models.create().catch(...).then(...)`: because the rejection is absorbed by
the `.catch` handler, the `.then` block runs on failure as well, so after
`statusBar.loadingError` the mount / reload / resize / hideLoading steps and
the callback still execute. -/
def loadModel (env : Env) (s : Oml2dState) (callback : List Effect) :
    Oml2dState × List Effect :=
  if s.options.models.length = 0 then
    (s, [Effect.tipsClear, Effect.stageSlideOut])
  else if mobileHidden env s then
    (s, [Effect.tipsClear, Effect.stageSlideOut, Effect.statusBarRest])
  else if env.loadOk then
    (s, [Effect.tipsClear, Effect.stageSlideOut, Effect.statusBarShowLoading,
         Effect.modelsCreate, Effect.pixiMount, Effect.menusReload,
         Effect.tipsReload, Effect.settingModel, Effect.stageReloadStyle,
         Effect.pixiResize, Effect.statusBarHideLoading] ++ callback)
  else
    (s, [Effect.tipsClear, Effect.stageSlideOut, Effect.statusBarShowLoading,
         Effect.modelsCreate, Effect.statusBarLoadingError RetryAction.reloadModel,
         Effect.pixiMount, Effect.menusReload,
         Effect.tipsReload, Effect.settingModel, Effect.stageReloadStyle,
         Effect.pixiResize, Effect.statusBarHideLoading] ++ callback)

/-- Source `reloadModel` (oml2d.ts lines 197-202). -/
def reloadModel (env : Env) (s : Oml2dState) : Oml2dState × List Effect :=
  let r := loadModel env s [Effect.stageSlideIn]
  (r.1, r.2 ++ [Effect.idleStart])

/-- JavaScript `x || 0` applied to an optional number parameter. -/
def jsOrZero : Option Int → Int
  | none => 0
  | some c => if c = 0 then 0 else c

/-- Source `loadModelByIndex` (oml2d.ts lines 238-250): the bounds check guards the
whole body, so an out-of-range index does nothing at all. -/
def loadModelByIndex (env : Env) (s : Oml2dState) (modelIndex : Int)
    (modelClothesIndex : Option Int) : Oml2dState × List Effect :=
  if 0 ≤ modelIndex ∧ modelIndex < (s.options.models.length : Int) then
    let s1 := setModelIndex s modelIndex
    let s2 := setModelClothesIndex s1 (jsOrZero modelClothesIndex)
    let r := loadModel env s2 [Effect.stageSlideIn]
    (r.1, Effect.statusBarOpen s2.options.switchingMessage :: r.2 ++ [Effect.idleStart])
  else
    (s, [])

/-- Source `Array.prototype.findIndex` on the catalog, matching on `name`: index of
the first entry with the given name, `-1` when none matches. -/
def findIndexFrom (modelName : String) : List Model → Int → Int
  | [], _ => -1
  | m :: rest, acc =>
    if m.name = modelName then acc else findIndexFrom modelName rest (acc + 1)

/-- Source `this.options.models.findIndex((item) => item.name === modelName)`. -/
def findModelIndex (models : List Model) (modelName : String) : Int :=
  findIndexFrom modelName models 0

/-- Source `loadModelByName` (oml2d.ts lines 255-269).  The guard in the source is
`targetIndex > 0` (strict), embedded as written. -/
def loadModelByName (env : Env) (s : Oml2dState) (modelName : String)
    (modelClothesIndex : Option Int) : Oml2dState × List Effect :=
  let targetIndex := findModelIndex s.options.models modelName
  if targetIndex > 0 then
    let s1 := setModelIndex s targetIndex
    let s2 := setModelClothesIndex s1 (jsOrZero modelClothesIndex)
    let r := loadModel env s2 [Effect.stageSlideIn]
    (r.1, Effect.statusBarOpen s2.options.switchingMessage :: r.2 ++ [Effect.idleStart])
  else
    (s, [])

/-- Source `loadNextModel` (oml2d.ts lines 221-233).  `++this.modelIndex` first
pushes `current + 1` through the setter, then the wrap check pushes `0` when
that value reached the catalog length. -/
def loadNextModel (env : Env) (s : Oml2dState) : Oml2dState × List Effect :=
  let s1 := setModelIndex s (s.currentModelIndex + 1)
  let s2 :=
    if (s1.options.models.length : Int) ≤ s1.currentModelIndex then
      setModelIndex s1 0
    else
      s1
  let s3 := setModelClothesIndex s2 0
  let r := loadModel env s3 [Effect.stageSlideIn]
  (r.1, Effect.statusBarOpen s3.options.switchingMessage :: r.2 ++ [Effect.idleStart])

/-- Catalog lookup `this.options.models[i]` (JS indexing; `none` plays the
role of `undefined`, on which the source would throw when reading `.path`). -/
def modelAtIndex (models : List Model) (i : Int) : Option Model :=
  if h : 0 ≤ i ∧ i.toNat < models.length then
    some (models.get ⟨i.toNat, h.2⟩)
  else
    none

/-- Source `loadNextModelClothes` (oml2d.ts lines 274-286): only acts when the active
entry's path is an array; `++this.modelClothesIndex` first pushes
`current + 1` through the setter, then the wrap check pushes `0`.  No
switching banner and no idle restart occur in this operation. -/
def loadNextModelClothes (env : Env) (s : Oml2dState) : Oml2dState × List Effect :=
  match modelAtIndex s.options.models s.currentModelIndex with
  | none => (s, [])
  | some m =>
    match m.path with
    | ModelPath.single _ => (s, [])
    | ModelPath.many ps =>
      let s1 := setModelClothesIndex s (s.currentModelClothesIndex + 1)
      let s2 :=
        if (ps.length : Int) ≤ s1.currentModelClothesIndex then
          setModelClothesIndex s1 0
        else
          s1
      let r := loadModel env s2 [Effect.stageSlideIn]
      (r.1, r.2)

/-- Notification surface state (`src/modules/tips.ts`): displayed content,
current priority (`private priority = 0`), the pending auto-hide timer
(`closeTimer`; the numeric handle is modelled as the scheduled duration,
`none` when no hide is pending), and the element's current animation name. -/
structure TipsState where
  content : String
  priority : Int
  closeTimer : Option Nat
  animationName : String
deriving DecidableEq

/-- Animation set by `showMessage` when a message is displayed. -/
def displayTipsAnimation : String := "oml2d-display-tips,oml2d-shake-tips"

/-- Animation set when the tips surface hides. -/
def hiddenTipsAnimation : String := "oml2d-hidden-tips,oml2d-shake-tips"

/-- Source `showMessage` (tips.ts lines 83-102): rejected when
`priority < this.priority`; otherwise adopts the new priority, clears any
pending auto-hide timer, replaces the content, plays the display animation
and schedules a fresh auto-hide after `duration`. -/
def showMessage (s : TipsState) (message : String) (duration : Nat)
    (priority : Int) : TipsState :=
  if priority < s.priority then
    s
  else
    { content := message
      priority := priority
      closeTimer := some duration
      animationName := displayTipsAnimation }

/-- Body of the `setTimeout` callback scheduled by `showMessage` (tips.ts
lines 96-101): plays the hide animation and resets the priority to the
baseline 0; firing consumes the pending timer. -/
def closeTimerFire (s : TipsState) : TipsState :=
  { s with
    animationName := hiddenTipsAnimation
    priority := 0
    closeTimer := none }

/-- State of the recurring idle timer. -/
inductive IdleStatus where
  | running
  | stopped
deriving DecidableEq

/-- Modelled from the spec: the cancellable recurring-timer primitive
(`setIntervalAsync` from the external tianjie package, typed `IdleTimer` in
the repository's `types/common.js`, neither of which is under `src/`).  Per
the spec's concurrency section and design notes it is an explicit
Running/Stopped state machine: `stop()` moves to Stopped, `start()` moves to
Running, and the tick callback only runs while Running. -/
structure IdlePlayer where
  status : IdleStatus
deriving DecidableEq

/-- Source `timer.start()` on the idle player. -/
def idleStartPlayer (p : IdlePlayer) : IdlePlayer :=
  { p with status := IdleStatus.running }

/-- Source `timer.stop()` on the idle player. -/
def idleStopPlayer (p : IdlePlayer) : IdlePlayer :=
  { p with status := IdleStatus.stopped }

/-- One tick of the idle scheduler (`createIdleMessagePlayer`, tips.ts lines
154-185).  `message` is the string the tick's message source resolved (word
of the day, provider function, or random pool item; the empty string stands
for an empty result).  On a non-empty result the tick shows the message with
the configured idle duration and priority; on an empty result it calls
`timer.stop()`.  A stopped timer does not tick. -/
def idleTick (p : IdlePlayer) (tips : TipsState) (message : String)
    (duration : Nat) (priority : Int) : IdlePlayer × TipsState :=
  match p.status with
  | IdleStatus.stopped => (p, tips)
  | IdleStatus.running =>
    if message = "" then
      (idleStopPlayer p, tips)
    else
      (p, showMessage tips message duration priority)

/-- A sequence of idle ticks, each with its resolved message, duration and
priority. -/
def idleTicks (p : IdlePlayer) (tips : TipsState) :
    List (String × Nat × Int) → IdlePlayer × TipsState
  | [] => (p, tips)
  | t :: rest =>
    let r := idleTick p tips t.1 t.2.1 t.2.2
    idleTicks r.1 r.2 rest

/-- Calls forwarded to the model manager by the hit-area methods. -/
inductive ModelsCall where
  | removeHitAreaFrames
  | addHitAreaFrames
deriving DecidableEq

/-- Source `showModelHitAreaFrames` (oml2d.ts lines 60-62): forwards to
`models.removeHitAreaFrames()`. -/
def showModelHitAreaFrames : List ModelsCall :=
  [ModelsCall.removeHitAreaFrames]

/-- Source `hideModelHitAreaFrames` (oml2d.ts lines 67-69): forwards to
`models.addHitAreaFrames()`. -/
def hideModelHitAreaFrames : List ModelsCall :=
  [ModelsCall.addHitAreaFrames]

/-- Whether the selection's model index is in range for the current catalog.
This is the model-index half of the spec's SelectionState invariant. -/
def selectionInRange (s : Oml2dState) : Prop :=
  0 ≤ s.currentModelIndex ∧ s.currentModelIndex < (s.options.models.length : Int)

instance (s : Oml2dState) : Decidable (selectionInRange s) :=
  inferInstanceAs (Decidable (_ ∧ _))

/-- One-entry catalog used as a concrete test fixture. -/
def catalogA : List Model :=
  [Model.mk "A" (ModelPath.single "a.model")]

/-- Two-entry catalog used as a concrete test fixture. -/
def catalogAB : List Model :=
  [Model.mk "A" (ModelPath.single "a.model"),
   Model.mk "B" (ModelPath.single "b.model")]

/-- Fixture state over the one-entry catalog, mobile display allowed. -/
def stateA : Oml2dState :=
  { options := { models := catalogA, mobileDisplay := true, switchingMessage := "sw" }
    currentModelIndex := 0
    currentModelClothesIndex := 0
    stageModelIndex := 0
    modelsModelIndex := 0
    modelsClothesIndex := 0
    storeModelIndex := 0
    storeClothesIndex := 0
    setterLog := [] }

/-- Fixture state over the two-entry catalog, mobile display allowed. -/
def stateAB : Oml2dState :=
  { options := { models := catalogAB, mobileDisplay := true, switchingMessage := "sw" }
    currentModelIndex := 0
    currentModelClothesIndex := 0
    stageModelIndex := 0
    modelsModelIndex := 0
    modelsClothesIndex := 0
    storeModelIndex := 0
    storeClothesIndex := 0
    setterLog := [] }

/-- Fixture state over the one-entry catalog with mobile display disabled. -/
def stateMobileOff : Oml2dState :=
  { stateA with
    options := { models := catalogA, mobileDisplay := false, switchingMessage := "sw" } }

/-- Desktop viewport, asset load succeeds. -/
def envOk : Env := { windowSizeType := WindowSizeType.pc, loadOk := true }

/-- Desktop viewport, asset load rejects. -/
def envFail : Env := { windowSizeType := WindowSizeType.pc, loadOk := false }

/-- Mobile viewport, asset load would succeed. -/
def envMobile : Env := { windowSizeType := WindowSizeType.mobile, loadOk := true }

/-- Tips fixture: empty surface at baseline priority. -/
def tipsEmpty : TipsState :=
  { content := "", priority := 0, closeTimer := none, animationName := "" }

/-- Idle player fixture in the Running state. -/
def idleRunning : IdlePlayer := { status := IdleStatus.running }

theorem loadModel_fst (env : Env) (s : Oml2dState) (cb : List Effect) :
    (loadModel env s cb).1 = s := by
  unfold loadModel
  split_ifs <;> rfl

theorem idleTicks_stopped (p : IdlePlayer) (tips : TipsState)
    (h : p.status = IdleStatus.stopped) :
    (l : List (String × Nat × Int)) → idleTicks p tips l = (p, tips)
  | [] => rfl
  | t :: rest => by
    simp only [idleTicks, idleTick, h]
    exact idleTicks_stopped p tips h rest

theorem findIndexFrom_spec (nm : String) :
    (l : List Model) → (acc : Int) →
    findIndexFrom nm l acc = -1 ∨
      (acc ≤ findIndexFrom nm l acc ∧
        findIndexFrom nm l acc < acc + (l.length : Int))
  | [], _ => Or.inl rfl
  | m :: rest, acc => by
    by_cases hm : m.name = nm
    · right
      simp only [findIndexFrom, if_pos hm, List.length_cons]
      push_cast
      omega
    · rcases findIndexFrom_spec nm rest (acc + 1) with h | h
      · left
        simpa only [findIndexFrom, if_neg hm] using h
      · right
        simp only [findIndexFrom, if_neg hm, List.length_cons] at h ⊢
        push_cast at h ⊢
        omega

theorem loadNextModelClothes_fst_modelIndex (env : Env) (s : Oml2dState) :
    (loadNextModelClothes env s).1.currentModelIndex = s.currentModelIndex ∧
    (loadNextModelClothes env s).1.options = s.options := by
  unfold loadNextModelClothes
  split
  · exact ⟨rfl, rfl⟩
  · split
    · exact ⟨rfl, rfl⟩
    · simp only [loadModel_fst, setModelClothesIndex]
      split_ifs <;> exact ⟨rfl, rfl⟩

/-- Claim C5: for every out-of-range index (negative or at least the catalog
length), loadModelByIndex leaves the whole orchestrator state unchanged —
in particular both selection indices — runs no transition workflow and
surfaces nothing to the caller: it returns the unchanged state with an empty
effect trace. -/
theorem loadModelByIndex_out_of_range_noop (env : Env) (s : Oml2dState)
    (i : Int) (c : Option Int)
    (h : i < 0 ∨ (s.options.models.length : Int) ≤ i) :
    loadModelByIndex env s i c = (s, []) := by
  have hc : ¬(0 ≤ i ∧ i < (s.options.models.length : Int)) := by
    rintro ⟨h1, h2⟩
    rcases h with h | h <;> omega
  unfold loadModelByIndex
  rw [if_neg hc]

/-- Witness for C5: index 5 is out of range for the one-entry catalog and the
call is a complete no-op. -/
theorem loadModelByIndex_out_of_range_noop_witness :
    ((5 : Int) < 0 ∨ ((stateA.options.models.length : Int) ≤ 5)) ∧
    loadModelByIndex envOk stateA 5 none = (stateA, []) :=
  ⟨by decide, loadModelByIndex_out_of_range_noop envOk stateA 5 none (by decide)⟩

/-- Claim C6: for every in-bounds index, loadModelByIndex pushes exactly that
index into the persisted store (and the private field), and with no explicit
clothes argument the clothes index and its persisted and mirrored copies are
set to 0. -/
theorem loadModelByIndex_in_range_persists (env : Env) (s : Oml2dState)
    (i : Int) (h0 : 0 ≤ i) (h1 : i < (s.options.models.length : Int)) :
    (loadModelByIndex env s i none).1.storeModelIndex = i ∧
    (loadModelByIndex env s i none).1.currentModelIndex = i ∧
    (loadModelByIndex env s i none).1.currentModelClothesIndex = 0 ∧
    (loadModelByIndex env s i none).1.storeClothesIndex = 0 ∧
    (loadModelByIndex env s i none).1.modelsClothesIndex = 0 := by
  unfold loadModelByIndex
  rw [if_pos ⟨h0, h1⟩]
  simp [loadModel_fst, setModelIndex, setModelClothesIndex, jsOrZero]

/-- Witness for C6: index 1 is in bounds for the two-entry catalog; it is
persisted exactly and the clothes index ends at 0. -/
theorem loadModelByIndex_in_range_persists_witness :
    (0 : Int) ≤ 1 ∧ (1 : Int) < (stateAB.options.models.length : Int) ∧
    (loadModelByIndex envOk stateAB 1 none).1.storeModelIndex = 1 ∧
    (loadModelByIndex envOk stateAB 1 none).1.currentModelClothesIndex = 0 := by
  have h := loadModelByIndex_in_range_persists envOk stateAB 1 (by decide) (by decide)
  exact ⟨by decide, by decide, h.1, h.2.2.1⟩

/-- Claim C7: for every non-empty catalog and in-range current index,
loadNextModel sets the current and persisted model index to
(current + 1) mod catalog.length, wrapping from the last index to 0. -/
theorem loadNextModel_mod (env : Env) (s : Oml2dState)
    (h0 : 0 ≤ s.currentModelIndex)
    (h1 : s.currentModelIndex < (s.options.models.length : Int)) :
    (loadNextModel env s).1.currentModelIndex =
      (s.currentModelIndex + 1) % (s.options.models.length : Int) ∧
    (loadNextModel env s).1.storeModelIndex =
      (s.currentModelIndex + 1) % (s.options.models.length : Int) := by
  unfold loadNextModel
  simp only [loadModel_fst, setModelIndex, setModelClothesIndex]
  split_ifs with hc <;> dsimp only at hc ⊢
  · have hl : s.currentModelIndex + 1 = (s.options.models.length : Int) := by
      omega
    rw [hl, Int.emod_self]
    exact ⟨rfl, rfl⟩
  · rw [Int.emod_eq_of_lt (by omega) (by omega)]
    exact ⟨rfl, rfl⟩

/-- Witness for C7, including end-to-end scenario B: two-entry catalog at
index 0, two consecutive loadNextModel calls reach index 1 and wrap back to
index 0. -/
theorem loadNextModel_mod_witness :
    (0 : Int) ≤ stateAB.currentModelIndex ∧
    stateAB.currentModelIndex < (stateAB.options.models.length : Int) ∧
    (loadNextModel envOk stateAB).1.currentModelIndex = 1 ∧
    (loadNextModel envOk (loadNextModel envOk stateAB).1).1.currentModelIndex = 0 := by
  refine ⟨by decide, by decide, ?_, ?_⟩
  · rw [(loadNextModel_mod envOk stateAB (by decide) (by decide)).1]
    decide
  · rw [(loadNextModel_mod envOk (loadNextModel envOk stateAB).1
      (by decide) (by decide)).1]
    decide

/-- Claim C9: on every workflow run over a non-empty catalog in which the
mobile-hidden predicate (re-evaluated from the run's own environment) holds,
loadModel stops right after the exit transition: the trace is exactly
clear-tips, exit, resting status — so no load is attempted, the loading
indicator never shows and the completion callback (enter transition) never
runs. -/
theorem loadModel_mobileHidden_aborts (env : Env) (s : Oml2dState)
    (cb : List Effect) (hne : s.options.models ≠ [])
    (hm : mobileHidden env s = true) :
    loadModel env s cb =
      (s, [Effect.tipsClear, Effect.stageSlideOut, Effect.statusBarRest]) ∧
    Effect.modelsCreate ∉ (loadModel env s cb).2 ∧
    Effect.stageSlideIn ∉ (loadModel env s cb).2 := by
  have hlen : ¬ s.options.models.length = 0 := by
    simpa [List.length_eq_zero] using hne
  have heq : loadModel env s cb =
      (s, [Effect.tipsClear, Effect.stageSlideOut, Effect.statusBarRest]) := by
    unfold loadModel
    rw [if_neg hlen, if_pos hm]
  refine ⟨heq, ?_, ?_⟩ <;> rw [heq]
  · show Effect.modelsCreate ∉
      [Effect.tipsClear, Effect.stageSlideOut, Effect.statusBarRest]
    decide
  · show Effect.stageSlideIn ∉
      [Effect.tipsClear, Effect.stageSlideOut, Effect.statusBarRest]
    decide

/-- Witness for C9 (end-to-end scenario D): mobile display disabled, mobile
viewport — the run aborts with the resting status after the exit transition. -/
theorem loadModel_mobileHidden_aborts_witness :
    stateMobileOff.options.models ≠ [] ∧
    mobileHidden envMobile stateMobileOff = true ∧
    loadModel envMobile stateMobileOff [Effect.stageSlideIn] =
      (stateMobileOff,
       [Effect.tipsClear, Effect.stageSlideOut, Effect.statusBarRest]) :=
  ⟨by decide, by decide,
   (loadModel_mobileHidden_aborts envMobile stateMobileOff [Effect.stageSlideIn]
     (by decide) (by decide)).1⟩

/-- Claim C10: showModelHitAreaFrames forwards to the model manager's
removeHitAreaFrames call and hideModelHitAreaFrames forwards to its
addHitAreaFrames call, exactly as the source does. -/
theorem hitAreaFrames_calls :
    showModelHitAreaFrames = [ModelsCall.removeHitAreaFrames] ∧
    hideModelHitAreaFrames = [ModelsCall.addHitAreaFrames] :=
  ⟨rfl, rfl⟩

/-- Claim C3: showMessage with a priority below the current one is a complete
no-op (state, hence content, priority and pending timer, unchanged); with a
priority at least the current one it replaces the content, adopts the new
priority, replaces any pending auto-hide timer with one for the new duration,
and that timer's firing resets the priority to the baseline 0. -/
theorem showMessage_priority_spec (s : TipsState) (m : String) (d : Nat)
    (p : Int) :
    (p < s.priority → showMessage s m d p = s) ∧
    (¬ p < s.priority →
      showMessage s m d p =
        { content := m, priority := p, closeTimer := some d,
          animationName := displayTipsAnimation } ∧
      (closeTimerFire (showMessage s m d p)).priority = 0 ∧
      (closeTimerFire (showMessage s m d p)).closeTimer = none) := by
  constructor
  · intro h
    unfold showMessage
    rw [if_pos h]
  · intro h
    unfold showMessage closeTimerFire
    rw [if_neg h]
    exact ⟨rfl, rfl, rfl⟩

/-- Witness for C3: a priority-1 message does not displace a priority-3 one,
while a priority-4 message does, scheduling its own auto-hide. -/
theorem showMessage_priority_spec_witness :
    ((1 : Int) < (3 : Int) ∧
      showMessage
        { content := "old", priority := 3, closeTimer := some 9,
          animationName := "" } "new" 5 1 =
        { content := "old", priority := 3, closeTimer := some 9,
          animationName := "" }) ∧
    (¬ (4 : Int) < (3 : Int) ∧
      showMessage
        { content := "old", priority := 3, closeTimer := some 9,
          animationName := "" } "new" 5 4 =
        { content := "new", priority := 4, closeTimer := some 5,
          animationName := displayTipsAnimation }) :=
  ⟨⟨by decide,
    (showMessage_priority_spec
      { content := "old", priority := 3, closeTimer := some 9,
        animationName := "" } "new" 5 1).1 (by decide)⟩,
   ⟨by decide,
    ((showMessage_priority_spec
      { content := "old", priority := 3, closeTimer := some 9,
        animationName := "" } "new" 5 4).2 (by decide)).1⟩⟩

/-- Claim C1 (divergence exhibited): loadModelByName guards its body with
targetIndex > 0 (strict), so a name matching the FIRST catalog entry —
findIndex result 0 — is silently ignored: on the one-entry catalog whose
only entry is named A, the call returns the unchanged state with an empty
trace, so no workflow runs and nothing is persisted; a match at index 1 on
the two-entry catalog is honoured and persisted, isolating the off-by-one
guard as the cause. -/
theorem loadModelByName_first_entry_ignored :
    findModelIndex stateA.options.models "A" = 0 ∧
    loadModelByName envOk stateA "A" none = (stateA, []) ∧
    (loadModelByName envOk stateAB "B" none).1.storeModelIndex = 1 := by
  decide

/-- Claim C2 (divergence exhibited): when models.create rejects, the source
chain catch-then-then shows the load-error status (whose retry action is
reloadModel) but the then-block still runs: the full failure trace goes on
to mount into the rendering surface, re-attach menus and tips, apply model
settings, resize stage and renderer, hide the loading indicator and invoke
the completion callback (the enter transition). -/
theorem loadModel_failure_continues :
    loadModel envFail stateA [Effect.stageSlideIn] =
      (stateA,
       [Effect.tipsClear, Effect.stageSlideOut, Effect.statusBarShowLoading,
        Effect.modelsCreate,
        Effect.statusBarLoadingError RetryAction.reloadModel,
        Effect.pixiMount, Effect.menusReload, Effect.tipsReload,
        Effect.settingModel, Effect.stageReloadStyle, Effect.pixiResize,
        Effect.statusBarHideLoading, Effect.stageSlideIn]) := by
  decide

/-- Counterexample for claim C4: the stop is not permanent. After a tick on
which the message source yields the empty result the player is stopped, but
a start call (issued in the source by reloadModel, startTipsIdle and the
notify method) restarts it, and a later tick whose source yields a non-empty
result displays a further message. -/
theorem idle_stop_not_permanent :
    (idleTick idleRunning tipsEmpty "" 3000 2).1.status = IdleStatus.stopped ∧
    (idleTick (idleStartPlayer (idleTick idleRunning tipsEmpty "" 3000 2).1)
        tipsEmpty "hello" 3000 2).2.content = "hello" := by
  decide

/-- Claim C4 (amended): once the idle scheduler's message source yields an
empty result on a tick, the player becomes stopped and — until an explicit
start call restarts it — every further sequence of ticks produces no message
and leaves the player stopped. -/
theorem idle_empty_stops_until_restart (p : IdlePlayer) (tips : TipsState)
    (d : Nat) (pr : Int) (rest : List (String × Nat × Int))
    (h : p.status = IdleStatus.running) :
    (idleTick p tips "" d pr).1.status = IdleStatus.stopped ∧
    idleTicks (idleTick p tips "" d pr).1 tips rest =
      ((idleTick p tips "" d pr).1, tips) := by
  have hstop : (idleTick p tips "" d pr).1.status = IdleStatus.stopped := by
    simp [idleTick, h, idleStopPlayer]
  exact ⟨hstop, idleTicks_stopped _ tips hstop rest⟩

/-- Witness for the amended C4: a running player hits an empty source result,
stops, and two further ticks (with non-empty results but no restart) change
nothing. -/
theorem idle_empty_stops_until_restart_witness :
    idleRunning.status = IdleStatus.running ∧
    (idleTick idleRunning tipsEmpty "" 5 2).1.status = IdleStatus.stopped ∧
    idleTicks (idleTick idleRunning tipsEmpty "" 5 2).1 tipsEmpty
        [("x", 5, 2), ("y", 5, 2)] =
      ((idleTick idleRunning tipsEmpty "" 5 2).1, tipsEmpty) := by
  have h := idle_empty_stops_until_restart idleRunning tipsEmpty 5 2
    [("x", 5, 2), ("y", 5, 2)] (by decide)
  exact ⟨by decide, h.1, h.2⟩

/-- Counterexample for claim C8: the setter path does receive and persist
out-of-range values. On the one-entry catalog (one clothing variant),
loadModelByIndex with explicit clothes argument 5 leaves the clothes index
and its persisted copy at 5, out of range for variant count 1, and
loadNextModel first pushes model index 1 — equal to the catalog length,
hence out of range — through the setter before correcting it to 0, as the
setter log records. -/
theorem selection_setter_out_of_range :
    (loadModelByIndex envOk stateA 0 (some 5)).1.currentModelClothesIndex = 5 ∧
    (loadModelByIndex envOk stateA 0 (some 5)).1.storeClothesIndex = 5 ∧
    variantCount (Model.mk "A" (ModelPath.single "a.model")) = 1 ∧
    (loadNextModel envOk stateA).1.setterLog =
      [SetterWrite.model 1, SetterWrite.model 0, SetterWrite.clothes 0] ∧
    (stateA.options.models.length : Int) = 1 := by
  decide

/-- Claim C8 (amended): the model-index half of the invariant holds of the
final state of every switch operation: starting from an in-range selection,
loadModelByIndex (any integer argument, no explicit clothes), loadModelByName
(any name), loadNextModel and loadNextModelClothes all end with
0 ≤ modelIndex < catalog.length, and loadNextModel ends with clothes index 0;
intermediate setter writes at the wrap and an explicitly supplied clothes
index are NOT bounded, as the counterexample shows. -/
theorem switch_final_model_index_in_range (env : Env) (s : Oml2dState)
    (i : Int) (nm : String) (h : selectionInRange s) :
    selectionInRange (loadModelByIndex env s i none).1 ∧
    selectionInRange (loadModelByName env s nm none).1 ∧
    selectionInRange (loadNextModel env s).1 ∧
    (loadNextModel env s).1.currentModelClothesIndex = 0 ∧
    selectionInRange (loadNextModelClothes env s).1 := by
  have hind : selectionInRange (loadModelByIndex env s i none).1 := by
    by_cases hg : 0 ≤ i ∧ i < (s.options.models.length : Int)
    · unfold loadModelByIndex
      rw [if_pos hg]
      simp only [loadModel_fst, setModelIndex, setModelClothesIndex]
      exact ⟨hg.1, hg.2⟩
    · unfold loadModelByIndex
      rw [if_neg hg]
      exact h
  have hname : selectionInRange (loadModelByName env s nm none).1 := by
    have hspec : findModelIndex s.options.models nm = -1 ∨
        (0 ≤ findModelIndex s.options.models nm ∧
          findModelIndex s.options.models nm <
            0 + (s.options.models.length : Int)) :=
      findIndexFrom_spec nm s.options.models 0
    unfold loadModelByName
    by_cases hg : findModelIndex s.options.models nm > 0
    · rw [if_pos hg]
      simp only [loadModel_fst, setModelIndex, setModelClothesIndex]
      have hb : 0 ≤ findModelIndex s.options.models nm ∧
          findModelIndex s.options.models nm <
            (s.options.models.length : Int) := by
        rcases hspec with hf | hf <;> omega
      exact ⟨hb.1, hb.2⟩
    · rw [if_neg hg]
      exact h
  have hnext : selectionInRange (loadNextModel env s).1 ∧
      (loadNextModel env s).1.currentModelClothesIndex = 0 := by
    unfold selectionInRange at h ⊢
    unfold loadNextModel
    simp only [loadModel_fst, setModelIndex, setModelClothesIndex]
    split_ifs with hc <;> dsimp only at hc ⊢ <;>
      exact ⟨⟨by omega, by omega⟩, by trivial⟩
  have hclothes : selectionInRange (loadNextModelClothes env s).1 := by
    unfold selectionInRange at h ⊢
    rw [(loadNextModelClothes_fst_modelIndex env s).1,
        (loadNextModelClothes_fst_modelIndex env s).2]
    exact h
  exact ⟨hind, hname, hnext.1, hnext.2, hclothes⟩

/-- Witness for the amended C8: from the in-range two-entry fixture the next
operation keeps the model index in range and resets the clothes index. -/
theorem switch_final_model_index_in_range_witness :
    selectionInRange stateAB ∧
    selectionInRange (loadNextModel envOk stateAB).1 ∧
    (loadNextModel envOk stateAB).1.currentModelClothesIndex = 0 := by
  have h := switch_final_model_index_in_range envOk stateAB 0 "B" (by decide)
  exact ⟨by decide, h.2.2.1, h.2.2.2.1⟩

end Oml2d
